import Mathlib

/-!
Verification of the SOC Analyst Workbench analytical core
(`app/ingest.py`, `app/features.py`, `app/detect.py`).

The Python source is shallowly embedded:
* JSON values (`json.loads` output) are the mutually inductive type
  `JVal`; the ingest loop receives each input line paired with the
  result of `json.loads` on its stripped text (the JSON parser itself
  is an external library, so its output is data to the loop).
* timestamps are modelled as seconds since 0001-01-01 00:00:00 UTC
  (`Nat`); Python's `datetime.timestamp()` differs from this by the
  constant offset of the 1970 epoch, which cancels in every comparison
  and delta the code performs.
* Python floats are modelled as rationals (`ℚ`); the confidence scorer
  only adds, subtracts, multiplies, divides and clamps.
* SQL queries are modelled as list transformations over the table rows
  they scan: `GROUP BY` is `dedup`-and-aggregate, `ORDER BY ... DESC
  LIMIT n` is a stable descending insertion sort followed by `take n`,
  and `ILIKE` is case-insensitive (prefix) matching.
-/

/-! ### JSON values -/

mutual
/-- A JSON value, the result of `json.loads` on one input line. -/
inductive JVal where
  | jnull
  | jbool (b : Bool)
  | jnum (n : Int)
  | jstr (s : String)
  | jarr (xs : JArr)
  | jobj (kvs : JObj)
/-- A JSON array. -/
inductive JArr where
  | nil
  | cons (v : JVal) (rest : JArr)
/-- A JSON object: an ordered key/value list, as `json.loads` produces. -/
inductive JObj where
  | nil
  | cons (k : String) (v : JVal) (rest : JObj)
end

deriving instance DecidableEq for JVal, JArr, JObj
deriving instance Repr for JVal, JArr, JObj

def JObj.toList : JObj → List (String × JVal)
  | .nil => []
  | .cons k v rest => (k, v) :: rest.toList

def JObj.ofList : List (String × JVal) → JObj
  | [] => .nil
  | (k, v) :: rest => .cons k v (JObj.ofList rest)

def JArr.isNil : JArr → Bool
  | .nil => true
  | _ => false

def JObj.isNil : JObj → Bool
  | .nil => true
  | _ => false

/-- Dictionary lookup; `json.loads` keeps the last value for a duplicated
key, so the last binding wins. -/
def lookupLast (kvs : List (String × JVal)) (k : String) : Option JVal :=
  (kvs.reverse.find? (fun p => p.1 = k)).map Prod.snd

/-- `ev.get(k)` with no default: Python returns `None` both when the key
is absent and when it is present with JSON `null`. -/
def pyGet (kvs : List (String × JVal)) (k : String) : Option JVal :=
  match lookupLast kvs k with
  | some JVal.jnull => none
  | o => o

/-- Python truthiness of a JSON-derived value (`if not s: ...`). -/
def JVal.truthy : JVal → Bool
  | .jnull => false
  | .jbool b => b
  | .jnum n => n != 0
  | .jstr s => s != ""
  | .jarr xs => !xs.isNil
  | .jobj kvs => !kvs.isNil

/-! ### Python string helpers -/

/-- Characters stripped by Python's `str.strip()`. -/
def pyWhitespace : List Char := [' ', '\t', '\n', '\r', '\x0b', '\x0c']

/-- `line.strip()`. -/
def pyStrip (s : String) : String :=
  String.mk ((((s.data.dropWhile (pyWhitespace.contains ·)).reverse).dropWhile
    (pyWhitespace.contains ·)).reverse)

/-- `s.lower()` (character-wise; every string the code compares
case-insensitively is ASCII). -/
def strLower (s : String) : String := String.mk (s.data.map Char.toLower)

/-- `s.upper()`. -/
def strUpper (s : String) : String := String.mk (s.data.map Char.toUpper)

/-- `s.startswith(pre)` on the underlying character lists. -/
def strStarts (pre s : String) : Bool := pre.data.isPrefixOf s.data

/-! ### `datetime.strptime(s, "%Y-%m-%d %H:%M:%S")` (`_parse_dt`'s core)

CPython's `_strptime` compiles the format to a regex (`%Y` is exactly
four digits, each two-digit field accepts one or two digits read
greedily) and range-checks the fields through the `datetime`
constructor.  The accepted value is converted to seconds since
0001-01-01 (proleptic Gregorian calendar, UTC). -/

/-- Greedily read between `min` and `max` decimal digits. -/
def fieldDigits (min max : Nat) (cs : List Char) : Option (Nat × List Char) :=
  let ds := (cs.take max).takeWhile Char.isDigit
  if ds.length < min then none
  else some (ds.foldl (fun n c => n * 10 + (c.toNat - 48)) 0, cs.drop ds.length)

/-- Consume one expected literal character. -/
def expectChar (c : Char) : List Char → Option (List Char)
  | [] => none
  | x :: xs => if x = c then some xs else none

def isLeapYear (y : Nat) : Bool := y % 4 = 0 && (y % 100 ≠ 0 || y % 400 = 0)

def daysInMonth (y m : Nat) : Nat :=
  match m with
  | 1 => 31 | 2 => if isLeapYear y then 29 else 28
  | 3 => 31 | 4 => 30 | 5 => 31 | 6 => 30 | 7 => 31
  | 8 => 31 | 9 => 30 | 10 => 31 | 11 => 30 | 12 => 31
  | _ => 0

/-- Number of leap years in `[1, y]`. -/
def leapsUpTo (y : Nat) : Nat := y / 4 - y / 100 + y / 400

/-- Days from the start of the year to the start of month `m`. -/
def daysBeforeMonth (y m : Nat) : Nat :=
  (List.range (m - 1)).foldl (fun acc i => acc + daysInMonth y (i + 1)) 0

/-- Complete days between 0001-01-01 and the given civil date. -/
def daysFromCivil (y m d : Nat) : Nat :=
  365 * (y - 1) + leapsUpTo (y - 1) + daysBeforeMonth y m + (d - 1)

/-- Seconds since 0001-01-01 00:00:00 of a civil datetime. -/
def civilToSec (y mo d h mi s : Nat) : Nat :=
  daysFromCivil y mo d * 86400 + h * 3600 + mi * 60 + s

/-- `datetime.strptime(s, "%Y-%m-%d %H:%M:%S").replace(tzinfo=utc)`,
returning `none` exactly where Python raises `ValueError`. -/
def parseDT (s : String) : Option Nat := do
  let cs := s.data
  let (y, cs) ← fieldDigits 4 4 cs
  let cs ← expectChar '-' cs
  let (mo, cs) ← fieldDigits 1 2 cs
  let cs ← expectChar '-' cs
  let (d, cs) ← fieldDigits 1 2 cs
  let cs ← expectChar ' ' cs
  let (h, cs) ← fieldDigits 1 2 cs
  let cs ← expectChar ':' cs
  let (mi, cs) ← fieldDigits 1 2 cs
  let cs ← expectChar ':' cs
  let (sec, cs) ← fieldDigits 1 2 cs
  if !cs.isEmpty then none else
  if 1 ≤ y ∧ 1 ≤ mo ∧ mo ≤ 12 ∧ 1 ≤ d ∧ d ≤ daysInMonth y mo ∧
      h ≤ 23 ∧ mi ≤ 59 ∧ sec ≤ 59 then
    some (civilToSec y mo d h mi sec)
  else none

/-! ### `normalize_zscaler` and `run_ingest_job` (`app/ingest.py`) -/

def digitsVal (ds : List Char) : Nat :=
  ds.foldl (fun n c => n * 10 + (c.toNat - 48)) 0

/-- Python's `int(s)` on a string: optional surrounding whitespace, an
optional sign, then decimal digits, with single underscores allowed
between digits. -/
def pyIntOfString (s : String) : Option Int :=
  let t := (pyStrip s).data
  let signed : Int × List Char :=
    match t with
    | '+' :: r => (1, r)
    | '-' :: r => (-1, r)
    | r => (1, r)
  let (sign, t) := signed
  if t ≠ [] ∧ t.all (fun c => c.isDigit ∨ c = '_') ∧
      t.head? ≠ some '_' ∧ t.getLast? ≠ some '_' ∧
      ¬ (t.zip (t.drop 1)).any (fun p => p.1 = '_' ∧ p.2 = '_') then
    some (sign * (digitsVal (t.filter Char.isDigit) : Int))
  else none

/-- `_to_int(x)`: `None`/`""` give `None`, anything unconvertible gives
`None` (the `try/except` swallows `ValueError`/`TypeError`), otherwise
the integer value. -/
def toIntField (x : Option JVal) : Option Int :=
  match x with
  | none => none
  | some (.jnum n) => some n
  | some (.jbool b) => some (if b then 1 else 0)
  | some (.jstr s) => if s = "" then none else pyIntOfString s
  | some _ => none

/-- `_parse_dt(s)`: falsy input gives `None`; a truthy string is parsed
with `strptime` (raising `ValueError` when unparseable); a truthy
non-string makes `strptime` raise `TypeError`.  `Except.error` marks a
raised exception. -/
def parse_dt (v : Option JVal) : Except Unit (Option Nat) :=
  match v with
  | none => .ok none
  | some v =>
    if !v.truthy then .ok none
    else match v with
      | .jstr s =>
        match parseDT s with
        | some t => .ok (some t)
        | none => .error ()
      | _ => .error ()

/-- One row of the `events` table. `upload_id` is stamped by the ingest
loop after normalization, exactly as the Python mutates the dict. -/
structure Row where
  upload_id : String := ""
  event_time : Option Nat := none
  event_id : Option JVal := none
  vendor : Option JVal := none
  action : Option JVal := none
  reason : Option JVal := none
  severity : Option JVal := none
  status : Option Int := none
  user_email : Option JVal := none
  department : Option JVal := none
  location : Option JVal := none
  client_ip : Option JVal := none
  server_ip : Option JVal := none
  dest_host : Option JVal := none
  url : Option JVal := none
  request_method : Option JVal := none
  url_category : Option JVal := none
  threat_category : Option JVal := none
  threat_name : Option JVal := none
  risk_score : Option Int := none
  request_size : Option Int := none
  response_size : Option Int := none
  transaction_size : Option Int := none
  raw : JVal := .jnull
deriving DecidableEq, Repr

/-- `normalize_zscaler(obj)`.  `obj.get("event", {})` defaults to `{}`
only when the key is absent; a present non-dict value (including JSON
`null`) makes the subsequent `ev.get(...)` raise `AttributeError`, and
an unparseable truthy timestamp makes `_parse_dt` raise — both are
modelled as `Except.error` and surface as a bad line in the loop. -/
def normalize_zscaler (obj : JVal) : Except Unit Row :=
  let evRes : Except Unit (List (String × JVal)) :=
    match obj with
    | .jobj kvs =>
      match lookupLast kvs.toList "event" with
      | some (.jobj ev) => .ok ev.toList
      | some _ => .error ()
      | none => .ok []
    | _ => .ok []
  match evRes with
  | .error _ => .error ()
  | .ok ev =>
    match parse_dt (pyGet ev "datetime") with
    | .error _ => .error ()
    | .ok t =>
      .ok {
        event_time := t
        event_id := pyGet ev "event_id"
        vendor := pyGet ev "vendor"
        action := pyGet ev "action"
        reason := pyGet ev "reason"
        severity := pyGet ev "severity"
        status := toIntField (pyGet ev "status")
        user_email := pyGet ev "user"
        department := pyGet ev "department"
        location := pyGet ev "location"
        client_ip := pyGet ev "ClientIP"
        server_ip := pyGet ev "serverip"
        dest_host := pyGet ev "hostname"
        url := pyGet ev "url"
        request_method := pyGet ev "requestmethod"
        url_category := pyGet ev "urlcategory"
        threat_category := pyGet ev "threatcategory"
        threat_name := pyGet ev "threatname"
        risk_score := toIntField (pyGet ev "riskscore")
        request_size := toIntField (pyGet ev "requestsize")
        response_size := toIntField (pyGet ev "responsesize")
        transaction_size := toIntField (pyGet ev "transactionsize")
        raw := obj
      }

/-- One input line: its raw text paired with the result of
`json.loads` on the stripped text (`none` = the parse raises). -/
abbrev IngestLine := String × Option JVal

/-- Result of one ingest run: the job-status counters, the committed
`events` rows, and the terminal job status. -/
structure IngestResult where
  inserted : Nat
  badLines : Nat
  events : List Row
  status : String
deriving DecidableEq, Repr

/-- The line loop of `run_ingest_job`: blank lines are skipped; a JSON
or normalization failure counts a bad line; a normalized row is stamped
with the upload id and batched; a full batch is bulk-inserted and
committed.  State: (inserted, bad_lines, committed events, batch). -/
def ingestLoop (uploadId : String) (batchSize : Nat) :
    Nat × Nat × List Row × List Row → List IngestLine →
    Nat × Nat × List Row × List Row
  | st, [] => st
  | (ins, bad, evs, batch), (s, p) :: rest =>
    if pyStrip s = "" then
      ingestLoop uploadId batchSize (ins, bad, evs, batch) rest
    else
      match p with
      | none => ingestLoop uploadId batchSize (ins, bad + 1, evs, batch) rest
      | some obj =>
        match normalize_zscaler obj with
        | .error _ => ingestLoop uploadId batchSize (ins, bad + 1, evs, batch) rest
        | .ok row =>
          let batch := batch ++ [{ row with upload_id := uploadId }]
          if batchSize ≤ batch.length then
            ingestLoop uploadId batchSize (ins + batch.length, bad, evs ++ batch, []) rest
          else
            ingestLoop uploadId batchSize (ins, bad, evs, batch) rest

/-- `run_ingest_job` on an already-opened input, absent storage
failures: run the line loop, flush the final partial batch, and mark
the job "done". -/
def run_ingest_job (lines : List IngestLine) (uploadId : String)
    (batchSize : Nat := 1000) : IngestResult :=
  let (ins, bad, evs, batch) := ingestLoop uploadId batchSize (0, 0, [], []) lines
  if batch.isEmpty then ⟨ins, bad, evs, "done"⟩
  else ⟨ins + batch.length, bad, evs ++ batch, "done"⟩

/-- Classification used to state the ingestion claims: a non-blank line
that parses and normalizes. -/
def lineGood (ln : IngestLine) : Bool :=
  pyStrip ln.1 ≠ "" &&
    (match ln.2 with
     | some obj => (normalize_zscaler obj).isOk
     | none => false)

/-- A non-blank line that fails JSON parsing or normalization. -/
def lineBad (ln : IngestLine) : Bool :=
  pyStrip ln.1 ≠ "" &&
    (match ln.2 with
     | some obj => !(normalize_zscaler obj).isOk
     | none => true)

/-! ### `build_minute_rollup` (`app/features.py`)

The rollup rebuild deletes the upload's rows and re-inserts one row per
distinct `(upload_id, date_trunc('minute', event_time), user_email,
client_ip, dest_host, action, threat_category)` tuple over the events
with a non-null `event_time`, with `count(*)` as `total`.  A minute
bucket is the event time in whole minutes. -/

/-- The grouping key of `event_rollup_minute`. -/
structure RKey where
  upload_id : String
  bucket : Nat
  user_email : Option JVal
  client_ip : Option JVal
  dest_host : Option JVal
  action : Option JVal
  threat_category : Option JVal
deriving DecidableEq, Repr

def rollupKey (e : Row) : RKey :=
  { upload_id := e.upload_id
    bucket := e.event_time.getD 0 / 60
    user_email := e.user_email
    client_ip := e.client_ip
    dest_host := e.dest_host
    action := e.action
    threat_category := e.threat_category }

/-- The rows scanned by the aggregation: the upload's events with a
non-null timestamp, projected to their grouping key. -/
def rollupSource (events : List Row) (uploadId : String) : List RKey :=
  (events.filter fun e =>
    decide (e.upload_id = uploadId) && e.event_time.isSome).map rollupKey

/-- The freshly built `event_rollup_minute` contents for one upload:
one `(key, total)` row per distinct key. -/
def build_minute_rollup (events : List Row) (uploadId : String) :
    List (RKey × Nat) :=
  let ks := rollupSource events uploadId
  ks.dedup.map fun k => (k, ks.count k)

/-! ### `_calc_confidence` and helpers (`app/detect.py`)

The evidence dictionary is modelled by the structure `Evidence`,
projected onto the keys `_calc_confidence` reads plus the `entity`
sub-dictionary some detectors emit; a key that a detector does not set
is `none`, exactly as `dict.get` returns `None` for it.  Numeric
values and timestamps are rationals (timestamps in seconds). -/

/-- The nested `evidence["entity"]` dictionary. -/
structure Entity where
  user_email : Option String := none
  client_ip : Option String := none
  dest_host : Option String := none
deriving DecidableEq, Repr

/-- The evidence payload fields read by `_calc_confidence`, plus
`entity`. -/
structure Evidence where
  user_email : Option String := none
  client_ip : Option String := none
  dest_host : Option String := none
  threat_category : Option String := none
  hits_in_minute : Option ℚ := none
  blocked_hits : Option ℚ := none
  distinct_threat_categories : Option ℚ := none
  active_minutes : Option ℚ := none
  phish_hits : Option ℚ := none
  payload_hits : Option ℚ := none
  first_phish : Option ℚ := none
  first_payload : Option ℚ := none
  entity : Option Entity := none
deriving DecidableEq, Repr

/-- `_clamp(x, lo, hi) = max(lo, min(hi, x))`. -/
def clamp (x lo hi : ℚ) : ℚ := max lo (min hi x)

/-- `_severity_base(severity)`. -/
def severity_base (severity : String) : ℚ :=
  let s := strLower severity
  if s = "critical" then 72/100
  else if s = "high" then 62/100
  else if s = "medium" then 50/100
  else if s = "low" then 38/100
  else 50/100

/-- `_ratio_score(value, threshold, cap_multiple)`. -/
def ratio_score (value threshold : ℚ) (capMultiple : ℚ := 3) : ℚ :=
  if threshold ≤ 0 then 0
  else clamp ((value - threshold) / (threshold * max (capMultiple - 1) (1/1000000000))) 0 1

/-- `evidence.get(k) not in (None, "", "<null>")`. -/
def presentNonSentinel (o : Option String) : Bool :=
  match o with
  | none => false
  | some s => s ≠ "" && s ≠ "<null>"

/-- The four generic evidence-quality boosts of `_calc_confidence`
(lines 229-236): +0.03 per present, non-sentinel top-level field. -/
def genericBoost (e : Evidence) : ℚ :=
  (if presentNonSentinel e.user_email then (3:ℚ)/100 else 0) +
  (if presentNonSentinel e.client_ip then (3:ℚ)/100 else 0) +
  (if presentNonSentinel e.dest_host then (3:ℚ)/100 else 0) +
  (if presentNonSentinel e.threat_category then (3:ℚ)/100 else 0)

/-- `x or 0` on an optional numeric value (a missing key and a zero
value both give 0). -/
def orZero (o : Option ℚ) : ℚ := o.getD 0

/-- The phish-chain time-delta bonus: with both timestamps present,
`0.10 * clamp(1 - max(0, Δsec)/1800, 0, 1)`. -/
def chainBonus (e : Evidence) : ℚ :=
  match e.first_phish, e.first_payload with
  | some fp, some fy => 1/10 * clamp (1 - max 0 (fy - fp) / 1800) 0 1
  | _, _ => 0

/-- The pattern-specific evidence-strength boost of `_calc_confidence`
(`p` is the already upper-cased pattern name). -/
def patternBoost (p : String) (e : Evidence) : ℚ :=
  if p = "BURST_FROM_SINGLE_IP" then
    30/100 * ratio_score (orZero e.hits_in_minute) 200 5
  else if p = "REPEATED_BLOCKED_THREAT_CATEGORY" then
    28/100 * ratio_score (orZero e.blocked_hits) 25 6
  else if p = "TOP_BLOCKED_DEST_HOST" then
    22/100 * ratio_score (orZero e.blocked_hits) 15 6
  else if p = "ENDPOINT_COMPROMISE_MULTI_CATEGORY" then
    20/100 * ratio_score (orZero e.distinct_threat_categories) 3 4 +
    22/100 * ratio_score (orZero e.blocked_hits) 12 6
  else if p = "C2_BEACONING_SUSPECTED" then
    18/100 * ratio_score (orZero e.active_minutes) 4 5 +
    18/100 * ratio_score (orZero e.blocked_hits) 8 8 + 4/100
  else if p = "PHISH_TO_PAYLOAD_CHAIN_SUSPECTED" then
    14/100 * ratio_score (orZero e.phish_hits) 2 8 +
    16/100 * ratio_score (orZero e.payload_hits) 2 10 + chainBonus e
  else 0

/-- `_calc_confidence(pattern_name, severity, evidence)`. -/
def calc_confidence (patternName severity : String) (e : Evidence) : ℚ :=
  clamp (severity_base severity + genericBoost e + patternBoost (strUpper patternName) e)
    (10/100) (99/100)

/-! ### Detector queries over `event_rollup_minute` (`app/detect.py`)

Detectors scan the rollup table, whose text columns are modelled as
`Option String` (the values the database stores).  `bucket` is the
minute bucket as whole minutes. -/

/-- One row of `event_rollup_minute` as the detectors see it. -/
structure RollupRow where
  upload_id : String
  bucket : Nat
  user_email : Option String := none
  client_ip : Option String := none
  dest_host : Option String := none
  action : Option String := none
  threat_category : Option String := none
  total : Nat
deriving DecidableEq, Repr

/-- `col ILIKE 'pat'` with no wildcard: case-insensitive equality;
a NULL column never matches. -/
def ilikeEq (v : Option String) (pat : String) : Bool :=
  match v with
  | none => false
  | some s => strLower s = strLower pat

/-- `col ILIKE 'pat%'`: case-insensitive prefix match. -/
def ilikeStarts (v : Option String) (pat : String) : Bool :=
  match v with
  | none => false
  | some s => strStarts (strLower pat) (strLower s)

/-- Sum of the values attached to a key in a keyed list
(`SUM(total)` for one group). -/
def sumFor {κ : Type} [DecidableEq κ] (prs : List (κ × Nat)) (k : κ) : Nat :=
  ((prs.filter fun p => decide (p.1 = k)).map Prod.snd).sum

/-- `GROUP BY` key with `SUM(total)`: one pair per distinct key. -/
def groupSums {κ : Type} [DecidableEq κ] (prs : List (κ × Nat)) : List (κ × Nat) :=
  (prs.map Prod.fst).dedup.map fun k => (k, sumFor prs k)

/-- Stable insertion into a list sorted descending by `f`. -/
def insertDescBy {α : Type} (f : α → Nat) (x : α) : List α → List α
  | [] => [x]
  | y :: ys => if f x ≤ f y then y :: insertDescBy f x ys else x :: y :: ys

/-- `ORDER BY f DESC` as a stable insertion sort. -/
def sortDescBy {α : Type} (f : α → Nat) : List α → List α
  | [] => []
  | x :: xs => insertDescBy f x (sortDescBy f xs)

/-! #### Detector 1: `BURST_FROM_SINGLE_IP`
`select bucket, client_ip, sum(total) from event_rollup_minute where
upload_id=? and client_ip is not null group by bucket, client_ip
having sum(total) >= 200 order by hits desc limit 20`. -/

def burstRows (t : List RollupRow) (uploadId : String) :
    List ((Nat × String) × Nat) :=
  (t.filter fun r => decide (r.upload_id = uploadId) && r.client_ip.isSome).map
    fun r => ((r.bucket, r.client_ip.getD ""), r.total)

/-- The burst groups surviving the `HAVING` clause. -/
def burstQualifying (t : List RollupRow) (uploadId : String) :
    List ((Nat × String) × Nat) :=
  (groupSums (burstRows t uploadId)).filter fun g => 200 ≤ g.2

/-- The burst groups actually returned (and hence emitted as findings):
top 20 by summed hits. -/
def burstFindings (t : List RollupRow) (uploadId : String) :
    List ((Nat × String) × Nat) :=
  (sortDescBy (fun g => g.2) (burstQualifying t uploadId)).take 20

/-! #### Detector 6: `PHISH_TO_PAYLOAD_CHAIN_SUSPECTED`
(`_detect_phish_to_payload_chain`, default `window_minutes=30`,
`min_phish=2`, `min_payload=2`). -/

/-- `(COALESCE(user_email,'<null>'), COALESCE(client_ip,'<null>'))`. -/
def chainKey (r : RollupRow) : String × String :=
  (r.user_email.getD "<null>", r.client_ip.getD "<null>")

/-- One side of the chain join: a `(user, ip)` group with its earliest
bucket (`MIN(bucket)`) and summed hits. -/
structure ChainGroup where
  key : String × String
  firstBucket : Nat
  hits : Nat
deriving DecidableEq, Repr

/-- `GROUP BY user, ip` with `MIN(bucket)` and `SUM(total)`. -/
def chainGroups (rs : List RollupRow) : List ChainGroup :=
  (rs.map chainKey).dedup.filterMap fun k =>
    let g := rs.filter fun r => decide (chainKey r = k)
    match (g.map fun r => r.bucket).min? with
    | some fb => some ⟨k, fb, (g.map fun r => r.total).sum⟩
    | none => none

/-- The phish CTE's source rows. -/
def phishRows (t : List RollupRow) (uploadId : String) : List RollupRow :=
  t.filter fun r =>
    decide (r.upload_id = uploadId) && ilikeEq r.action "Blocked" &&
      ilikeStarts r.threat_category "Phishing"

def payloadCats : List String :=
  ["Malware", "Ransomware", "Botnet", "Cryptomining", "Data Transfer", "Data Leakage"]

/-- The payload CTE's source rows. -/
def payloadRows (t : List RollupRow) (uploadId : String) : List RollupRow :=
  t.filter fun r =>
    decide (r.upload_id = uploadId) && ilikeEq r.action "Blocked" &&
      payloadCats.any fun c => ilikeStarts r.threat_category c

/-- One joined row of the chain query. -/
structure ChainFinding where
  key : String × String
  firstPhish : Nat
  firstPayload : Nat
  phishHits : Nat
  payloadHits : Nat
deriving DecidableEq, Repr

/-- The join plus `WHERE p.phish_hits >= min_phish AND y.payload_hits >=
min_payload AND y.first_payload <= p.first_phish + window` (the query
places no lower bound on `first_payload`). -/
def chainQualifying (t : List RollupRow) (uploadId : String)
    (windowMinutes minPhish minPayload : Nat) : List ChainFinding :=
  (chainGroups (phishRows t uploadId)).filterMap fun p =>
    match (chainGroups (payloadRows t uploadId)).find?
        (fun y => decide (y.key = p.key)) with
    | some y =>
      if minPhish ≤ p.hits ∧ minPayload ≤ y.hits ∧
          y.firstBucket ≤ p.firstBucket + windowMinutes then
        some ⟨p.key, p.firstBucket, y.firstBucket, p.hits, y.hits⟩
      else none
    | none => none

/-- `_detect_phish_to_payload_chain`: the qualifying joined groups,
ordered by payload hits descending, capped at 10. -/
def detect_phish_to_payload_chain (t : List RollupRow) (uploadId : String)
    (windowMinutes : Nat := 30) (minPhish : Nat := 2) (minPayload : Nat := 2) :
    List ChainFinding :=
  (sortDescBy (fun f => f.payloadHits)
    (chainQualifying t uploadId windowMinutes minPhish minPayload)).take 10

/-! #### Evidence payloads as the detectors build them
(projections onto the `Evidence` fields; keys a detector does not set
are `none`). -/

/-- Evidence dict of a `BURST_FROM_SINGLE_IP` finding (`client_ip` and
`hits_in_minute` are top-level keys). -/
def burstEvidence (clientIp : String) (hits : ℚ) : Evidence :=
  { client_ip := some clientIp, hits_in_minute := some hits }

/-- Evidence dict of `_detect_endpoint_compromise_multicategory`: the
user and IP live only inside the nested `entity` dictionary. -/
def endpointEvidence (userEmail clientIp : String)
    (distinctCats blockedHits : ℚ) : Evidence :=
  { blocked_hits := some blockedHits
    distinct_threat_categories := some distinctCats
    entity := some { user_email := some userEmail, client_ip := some clientIp } }

/-- Evidence dict of `_detect_c2_beaconing_suspected`: user, IP and
destination host live only inside the nested `entity` dictionary. -/
def c2Evidence (userEmail clientIp destHost : String)
    (activeMinutes blockedHits : ℚ) : Evidence :=
  { active_minutes := some activeMinutes
    blocked_hits := some blockedHits
    entity := some { user_email := some userEmail, client_ip := some clientIp,
                     dest_host := some destHost } }

/-- Evidence dict of a `PHISH_TO_PAYLOAD_CHAIN_SUSPECTED` finding
(timestamps in seconds: bucket minutes times 60). -/
def chainEvidence (f : ChainFinding) : Evidence :=
  { first_phish := some (60 * (f.firstPhish : ℚ))
    first_payload := some (60 * (f.firstPayload : ℚ))
    phish_hits := some (f.phishHits : ℚ)
    payload_hits := some (f.payloadHits : ℚ)
    entity := some { user_email := some f.key.1, client_ip := some f.key.2 } }

/-- Number of present, non-sentinel top-level entity/category fields in
an evidence payload. -/
def presentCount (e : Evidence) : Nat :=
  (if presentNonSentinel e.user_email then 1 else 0) +
  (if presentNonSentinel e.client_ip then 1 else 0) +
  (if presentNonSentinel e.dest_host then 1 else 0) +
  (if presentNonSentinel e.threat_category then 1 else 0)

/-- All string and timestamp fields equal, every numeric evidence value
at most the corresponding value of the second payload (after the
`or 0` defaulting the scorer applies). -/
def NumLE (e e' : Evidence) : Prop :=
  e.user_email = e'.user_email ∧ e.client_ip = e'.client_ip ∧
  e.dest_host = e'.dest_host ∧ e.threat_category = e'.threat_category ∧
  e.first_phish = e'.first_phish ∧ e.first_payload = e'.first_payload ∧
  e.entity = e'.entity ∧
  orZero e.hits_in_minute ≤ orZero e'.hits_in_minute ∧
  orZero e.blocked_hits ≤ orZero e'.blocked_hits ∧
  orZero e.distinct_threat_categories ≤ orZero e'.distinct_threat_categories ∧
  orZero e.active_minutes ≤ orZero e'.active_minutes ∧
  orZero e.phish_hits ≤ orZero e'.phish_hits ∧
  orZero e.payload_hits ≤ orZero e'.payload_hits

instance (e e' : Evidence) : Decidable (NumLE e e') := by
  unfold NumLE
  infer_instance

/-! ### Concrete inputs used by witnesses and counterexamples -/

/-- `{"event": {"datetime": "not-a-date"}}` as parsed JSON. -/
def notADateObj : JVal :=
  .jobj (.cons "event" (.jobj (.cons "datetime" (.jstr "not-a-date") .nil)) .nil)

/-- The same record as one input line. -/
def notADateLine : IngestLine :=
  ("\x7b\"event\": \x7b\"datetime\": \"not-a-date\"\x7d\x7d", some notADateObj)

/-- A JSON record of the vendor shape with the given event fields. -/
def jobjEvent (ev : List (String × JVal)) : JVal :=
  .jobj (.cons "event" (.jobj (JObj.ofList ev)) .nil)

/-- An event with a parsed timestamp (minute bucket 1). -/
def rowAtMinuteOne : Row := { upload_id := "u", event_time := some 60 }

/-- An event with a null timestamp. -/
def rowNullTime : Row := { upload_id := "u", event_time := none }

/-- A rollup row for the burst detector's scenarios. -/
def burstRow (ip : String) (total : Nat) : RollupRow :=
  { upload_id := "u", bucket := 0, client_ip := some ip, total := total }

/-- 20 groups strictly above the burst threshold plus one at exactly
200: the exact-threshold group is pushed past the `LIMIT 20` cap. -/
def c7Table : List RollupRow :=
  ((List.range 20).map fun i => burstRow ("ip" ++ toString i) 201) ++
    [burstRow "9.9.9.9" 200]

/-- One qualifying group and one below-threshold group. -/
def c7WitnessTable : List RollupRow :=
  [burstRow "9.9.9.9" 200, burstRow "8.8.8.8" 199]

/-- A blocked rollup row for the phish-chain scenarios. -/
def chainRow (bucket : Nat) (cat : String) (total : Nat) : RollupRow :=
  { upload_id := "u", bucket := bucket, user_email := some "bob@example.com",
    client_ip := some "10.0.0.5", action := some "Blocked",
    threat_category := some cat, total := total }

/-- Payload activity 10 minutes BEFORE the phishing activity. -/
def c4TableBefore : List RollupRow :=
  [chainRow 1000 "Phishing" 2, chainRow 990 "Malware" 2]

/-- Payload activity 10 minutes after the phishing activity. -/
def c4TableAfter10 : List RollupRow :=
  [chainRow 1000 "Phishing" 2, chainRow 1010 "Malware" 2]

/-- Payload activity 40 minutes after the phishing activity. -/
def c4TableAfter40 : List RollupRow :=
  [chainRow 1000 "Phishing" 2, chainRow 1040 "Malware" 2]

/-! #### Detector 2: `REPEATED_BLOCKED_THREAT_CATEGORY`
`... where upload_id=? and action ilike 'Blocked' and threat_category is
not null group by user_email, client_ip, threat_category having
sum(total) >= 25 order by blocked_hits desc limit 25`. -/

def repeatRows (t : List RollupRow) (uploadId : String) :
    List ((Option String × Option String × String) × Nat) :=
  (t.filter fun r =>
    decide (r.upload_id = uploadId) && ilikeEq r.action "Blocked" &&
      r.threat_category.isSome).map
    fun r => ((r.user_email, r.client_ip, r.threat_category.getD ""), r.total)

def repeatQualifying (t : List RollupRow) (uploadId : String) :
    List ((Option String × Option String × String) × Nat) :=
  (groupSums (repeatRows t uploadId)).filter fun g => 25 ≤ g.2

def repeatFindings (t : List RollupRow) (uploadId : String) :
    List ((Option String × Option String × String) × Nat) :=
  (sortDescBy (fun g => g.2) (repeatQualifying t uploadId)).take 25

/-! #### Detector 3: `TOP_BLOCKED_DEST_HOST`
`... where upload_id=? and action ilike 'Blocked' and dest_host is not
null group by dest_host having sum(total) >= 15 order by hits desc
limit 20`. -/

def hostRows (t : List RollupRow) (uploadId : String) : List (String × Nat) :=
  (t.filter fun r =>
    decide (r.upload_id = uploadId) && ilikeEq r.action "Blocked" &&
      r.dest_host.isSome).map
    fun r => (r.dest_host.getD "", r.total)

def hostQualifying (t : List RollupRow) (uploadId : String) : List (String × Nat) :=
  (groupSums (hostRows t uploadId)).filter fun g => 15 ≤ g.2

def hostFindings (t : List RollupRow) (uploadId : String) : List (String × Nat) :=
  (sortDescBy (fun g => g.2) (hostQualifying t uploadId)).take 20

/-! ## Helper lemmas -/

lemma clamp_le_clamp (lo hi : ℚ) {x y : ℚ} (h : x ≤ y) :
    clamp x lo hi ≤ clamp y lo hi :=
  max_le_max le_rfl (min_le_min le_rfl h)

lemma clamp_bounds (x lo hi : ℚ) (hlohi : lo ≤ hi) :
    lo ≤ clamp x lo hi ∧ clamp x lo hi ≤ hi :=
  ⟨le_max_left _ _, max_le hlohi (min_le_left _ _)⟩

lemma ratio_score_mono {v w t c : ℚ} (h : v ≤ w) :
    ratio_score v t c ≤ ratio_score w t c := by
  unfold ratio_score
  by_cases ht : t ≤ 0
  · simp [ht]
  · simp only [ht, if_false]
    apply clamp_le_clamp
    have hD : 0 < t * max (c - 1) (1/1000000000) :=
      mul_pos (lt_of_not_le ht)
        (lt_of_lt_of_le (by norm_num) (le_max_right _ _))
    exact (div_le_div_iff_of_pos_right hD).2 (by linarith)

/-- C3: for every pattern name, severity string and evidence payload,
the computed confidence lies in [0.10, 0.99]; in particular it is never
0 and never 1. -/
theorem C3_confidence_bounds (patternName severity : String) (e : Evidence) :
    10/100 ≤ calc_confidence patternName severity e ∧
    calc_confidence patternName severity e ≤ 99/100 ∧
    calc_confidence patternName severity e ≠ 0 ∧
    calc_confidence patternName severity e ≠ 1 := by
  obtain ⟨h1, h2⟩ :=
    clamp_bounds (severity_base severity + genericBoost e +
      patternBoost (strUpper patternName) e) (10/100) (99/100) (by norm_num)
  refine ⟨h1, h2, ?_, ?_⟩
  · intro h0
    rw [calc_confidence] at h0
    rw [h0] at h1
    norm_num at h1
  · intro h0
    rw [calc_confidence] at h0
    rw [h0] at h2
    norm_num at h2

lemma chainBonus_eq {e e' : Evidence} (hfp : e.first_phish = e'.first_phish)
    (hfy : e.first_payload = e'.first_payload) : chainBonus e = chainBonus e' := by
  unfold chainBonus
  rw [hfp, hfy]

lemma genericBoost_congr {e e' : Evidence} (hu : e.user_email = e'.user_email)
    (hc : e.client_ip = e'.client_ip) (hd : e.dest_host = e'.dest_host)
    (ht : e.threat_category = e'.threat_category) :
    genericBoost e = genericBoost e' := by
  unfold genericBoost
  rw [hu, hc, hd, ht]

lemma patternBoost_mono (q : String) {e e' : Evidence} (h : NumLE e e') :
    patternBoost q e ≤ patternBoost q e' := by
  obtain ⟨hu, hc, hd, ht, hfp, hfy, hen, h1, h2, h3, h4, h5, h6⟩ := h
  unfold patternBoost
  split_ifs
  · exact mul_le_mul_of_nonneg_left (ratio_score_mono h1) (by norm_num)
  · exact mul_le_mul_of_nonneg_left (ratio_score_mono h2) (by norm_num)
  · exact mul_le_mul_of_nonneg_left (ratio_score_mono h2) (by norm_num)
  · exact add_le_add (mul_le_mul_of_nonneg_left (ratio_score_mono h3) (by norm_num))
      (mul_le_mul_of_nonneg_left (ratio_score_mono h2) (by norm_num))
  · exact add_le_add
      (add_le_add (mul_le_mul_of_nonneg_left (ratio_score_mono h4) (by norm_num))
        (mul_le_mul_of_nonneg_left (ratio_score_mono h2) (by norm_num))) le_rfl
  · exact add_le_add
      (add_le_add (mul_le_mul_of_nonneg_left (ratio_score_mono h5) (by norm_num))
        (mul_le_mul_of_nonneg_left (ratio_score_mono h6) (by norm_num)))
      (le_of_eq (chainBonus_eq hfp hfy))
  · exact le_rfl

/-- C6: with the pattern and severity fixed and every non-numeric
evidence field held fixed, increasing any of a detector's numeric
evidence values never decreases the computed confidence. -/
theorem C6_confidence_monotonicity (patternName severity : String)
    (e e' : Evidence) (h : NumLE e e') :
    calc_confidence patternName severity e ≤
      calc_confidence patternName severity e' := by
  unfold calc_confidence
  apply clamp_le_clamp
  have hg : genericBoost e = genericBoost e' :=
    genericBoost_congr h.1 h.2.1 h.2.2.1 h.2.2.2.1
  have hp := patternBoost_mono (strUpper patternName) h
  linarith

/-- Witness for C6 at the burst detector: raising `hits_in_minute` from
200 to 350 does not decrease the confidence. -/
theorem C6_confidence_monotonicity_witness :
    NumLE (burstEvidence "1.2.3.4" 200) (burstEvidence "1.2.3.4" 350) ∧
    calc_confidence "BURST_FROM_SINGLE_IP" "high" (burstEvidence "1.2.3.4" 200) ≤
      calc_confidence "BURST_FROM_SINGLE_IP" "high" (burstEvidence "1.2.3.4" 350) :=
  ⟨by decide, C6_confidence_monotonicity "BURST_FROM_SINGLE_IP" "high"
    (burstEvidence "1.2.3.4" 200) (burstEvidence "1.2.3.4" 350) (by decide)⟩


lemma strUpper_c2lit :
    strUpper "C2_BEACONING_SUSPECTED" = "C2_BEACONING_SUSPECTED" := by decide

lemma strUpper_endpointlit :
    strUpper "ENDPOINT_COMPROMISE_MULTI_CATEGORY" =
      "ENDPOINT_COMPROMISE_MULTI_CATEGORY" := by decide

lemma genericBoost_endpointEvidence (ue ip : String) (dc bh : ℚ) :
    genericBoost (endpointEvidence ue ip dc bh) = 0 := by
  simp [genericBoost, endpointEvidence, presentNonSentinel]

lemma genericBoost_c2Evidence (ue ip dh : String) (am bh : ℚ) :
    genericBoost (c2Evidence ue ip dh am bh) = 0 := by
  simp [genericBoost, c2Evidence, presentNonSentinel]

lemma patternBoost_endpointlit (e : Evidence) :
    patternBoost "ENDPOINT_COMPROMISE_MULTI_CATEGORY" e =
      20/100 * ratio_score (orZero e.distinct_threat_categories) 3 4 +
      22/100 * ratio_score (orZero e.blocked_hits) 12 6 := by
  unfold patternBoost
  rw [if_neg (by decide), if_neg (by decide), if_neg (by decide), if_pos rfl]

lemma patternBoost_c2lit (e : Evidence) :
    patternBoost "C2_BEACONING_SUSPECTED" e =
      18/100 * ratio_score (orZero e.active_minutes) 4 5 +
      18/100 * ratio_score (orZero e.blocked_hits) 8 8 + 4/100 := by
  unfold patternBoost
  rw [if_neg (by decide), if_neg (by decide), if_neg (by decide),
    if_neg (by decide), if_pos rfl]

lemma severity_base_high : severity_base "high" = 62/100 := by
  simp only [severity_base]
  rw [show strLower "high" = "high" from by decide]
  rw [if_neg (by decide), if_pos rfl]

lemma ratio_score_at_threshold (t c : ℚ) (ht : 0 < t) : ratio_score t t c = 0 := by
  unfold ratio_score
  rw [if_neg (not_le.2 ht), sub_self, zero_div]
  unfold clamp
  rw [min_eq_right (by norm_num), max_self]

/-- C5 (amended): the scorer adds +0.03 per present, non-sentinel
TOP-LEVEL `user_email`/`client_ip`/`dest_host`/`threat_category`
evidence key, up to +0.12; the ENDPOINT_COMPROMISE_MULTI_CATEGORY and
C2_BEACONING_SUSPECTED detectors nest those identifiers inside
`evidence["entity"]`, so their payloads receive no generic evidence
boost and their confidence is independent of the nested identifiers. -/
theorem C5_generic_boost_amended :
    (∀ e : Evidence, genericBoost e = 3/100 * presentCount e ∧
      genericBoost e ≤ 12/100) ∧
    (∀ patternName severity : String, ∀ e : Evidence,
      calc_confidence patternName severity e =
        clamp (severity_base severity + genericBoost e +
          patternBoost (strUpper patternName) e) (10/100) (99/100)) ∧
    (∀ ue ip : String, ∀ dc bh : ℚ,
      genericBoost (endpointEvidence ue ip dc bh) = 0) ∧
    (∀ ue ip dh : String, ∀ am bh : ℚ,
      genericBoost (c2Evidence ue ip dh am bh) = 0) ∧
    (∀ severity ue ue' ip ip' : String, ∀ dc bh : ℚ,
      calc_confidence "ENDPOINT_COMPROMISE_MULTI_CATEGORY" severity
          (endpointEvidence ue ip dc bh) =
        calc_confidence "ENDPOINT_COMPROMISE_MULTI_CATEGORY" severity
          (endpointEvidence ue' ip' dc bh)) := by
  refine ⟨?_, fun _ _ _ => rfl, genericBoost_endpointEvidence,
    genericBoost_c2Evidence, ?_⟩
  · intro e
    constructor
    · unfold genericBoost presentCount
      split_ifs <;> norm_num
    · unfold genericBoost
      split_ifs <;> norm_num
  · intro severity ue ue' ip ip' dc bh
    unfold calc_confidence
    rw [strUpper_endpointlit, genericBoost_endpointEvidence,
      genericBoost_endpointEvidence, patternBoost_endpointlit,
      patternBoost_endpointlit]
    simp [endpointEvidence]

/-- C5 counterexample: a C2_BEACONING_SUSPECTED payload carrying a
user, client IP and destination host (inside `entity`) scores exactly
the same as one whose identifiers are all the `<null>` sentinel — and
equals base 0.62 plus the 0.04 pattern bonus, with no +0.03 boosts. -/
theorem C5_counterexample :
    calc_confidence "C2_BEACONING_SUSPECTED" "high"
        (c2Evidence "bob@example.com" "10.0.0.5" "evil.example.com" 4 8) =
      calc_confidence "C2_BEACONING_SUSPECTED" "high"
        (c2Evidence "<null>" "<null>" "<null>" 4 8) ∧
    calc_confidence "C2_BEACONING_SUSPECTED" "high"
        (c2Evidence "bob@example.com" "10.0.0.5" "evil.example.com" 4 8) =
      66/100 := by
  constructor
  · unfold calc_confidence
    rw [strUpper_c2lit, genericBoost_c2Evidence, genericBoost_c2Evidence,
      patternBoost_c2lit, patternBoost_c2lit]
    simp [c2Evidence]
  · unfold calc_confidence
    rw [strUpper_c2lit, genericBoost_c2Evidence, patternBoost_c2lit,
      severity_base_high]
    simp only [c2Evidence, orZero, Option.getD_some]
    rw [ratio_score_at_threshold 4 5 (by norm_num),
      ratio_score_at_threshold 8 8 (by norm_num)]
    norm_num [clamp, min_def, max_def]

/-- C2: for every upload, the `total` values of the freshly built
minute rollup sum to the number of that upload's events with a
non-null timestamp, and an event with a null timestamp contributes to
no rollup row. -/
theorem C2_rollup_conservation (events : List Row) (uploadId : String) :
    ((build_minute_rollup events uploadId).map Prod.snd).sum =
      (events.filter fun e =>
        decide (e.upload_id = uploadId) && e.event_time.isSome).length ∧
    ∀ (pre post : List Row) (e : Row), e.event_time = none →
      build_minute_rollup (pre ++ e :: post) uploadId =
        build_minute_rollup (pre ++ post) uploadId := by
  constructor
  · unfold build_minute_rollup
    rw [List.map_map]
    have h := List.sum_map_count_dedup_eq_length (rollupSource events uploadId)
    simpa [rollupSource] using h
  · intro pre post e he
    unfold build_minute_rollup rollupSource
    simp [List.filter_append, List.filter_cons, he]

/-- Witness for C2 on a two-event upload: one event at minute bucket 1
and one with a null timestamp; the rollup totals sum to 1, and the
null-timestamp event does not change the rollup at all. -/
theorem C2_rollup_conservation_witness :
    ((build_minute_rollup [rowAtMinuteOne, rowNullTime] "u").map Prod.snd).sum = 1 ∧
    build_minute_rollup ([rowAtMinuteOne] ++ rowNullTime :: []) "u" =
      build_minute_rollup ([rowAtMinuteOne] ++ []) "u" :=
  ⟨((C2_rollup_conservation [rowAtMinuteOne, rowNullTime] "u").1).trans (by decide),
   (C2_rollup_conservation [rowAtMinuteOne, rowNullTime] "u").2
     [rowAtMinuteOne] [] rowNullTime rfl⟩

/-! ### Generic facts about `HAVING`-threshold queries -/

lemma insertDescBy_perm {α : Type} (f : α → Nat) (x : α) (l : List α) :
    (insertDescBy f x l).Perm (x :: l) := by
  induction l with
  | nil => exact List.Perm.refl _
  | cons y ys ih =>
    unfold insertDescBy
    by_cases h : f x ≤ f y
    · simp only [h, if_true]
      exact (ih.cons y).trans (List.Perm.swap x y ys)
    · simp only [h, if_false]
      exact List.Perm.refl _

lemma sortDescBy_perm {α : Type} (f : α → Nat) (l : List α) :
    (sortDescBy f l).Perm l := by
  induction l with
  | nil => exact List.Perm.refl _
  | cons x xs ih =>
    exact (insertDescBy_perm f x (sortDescBy f xs)).trans (ih.cons x)

lemma sumFor_eq_zero_of_not_mem {κ : Type} [DecidableEq κ]
    {prs : List (κ × Nat)} {k : κ} (h : k ∉ prs.map Prod.fst) :
    sumFor prs k = 0 := by
  unfold sumFor
  have hnil : prs.filter (fun p => decide (p.1 = k)) = [] := by
    rw [List.filter_eq_nil_iff]
    intro p hp
    simp only [decide_eq_true_eq]
    intro hk
    exact h (List.mem_map.2 ⟨p, hp, hk⟩)
  rw [hnil]
  rfl

/-- A group whose sum reaches the threshold appears in the filtered
(`HAVING`) group list with exactly its sum. -/
lemma having_mem {κ : Type} [DecidableEq κ] (prs : List (κ × Nat))
    (thr : Nat) (k : κ) (hpos : 0 < thr) (h : thr ≤ sumFor prs k) :
    (k, sumFor prs k) ∈ (groupSums prs).filter fun g => decide (thr ≤ g.2) := by
  have hk : k ∈ prs.map Prod.fst := by
    by_contra hk
    rw [sumFor_eq_zero_of_not_mem hk] at h
    omega
  refine List.mem_filter.2 ⟨?_, by simpa using h⟩
  unfold groupSums
  exact List.mem_map.2 ⟨k, List.mem_dedup.2 hk, rfl⟩

/-- Any entry of the filtered group list carries exactly the sum of
its key's rows, and that sum reaches the threshold. -/
lemma having_mem_inv {κ : Type} [DecidableEq κ] {prs : List (κ × Nat)}
    {thr : Nat} {g : κ × Nat}
    (h : g ∈ (groupSums prs).filter fun g => decide (thr ≤ g.2)) :
    g.2 = sumFor prs g.1 ∧ thr ≤ g.2 := by
  obtain ⟨h1, h2⟩ := List.mem_filter.1 h
  refine ⟨?_, by simpa using h2⟩
  unfold groupSums at h1
  obtain ⟨k, _, he⟩ := List.mem_map.1 h1
  cases he
  rfl

/-- A group strictly below the threshold never appears in the emitted
(top-`cap`) rows. -/
lemma below_threshold_not_emitted {κ : Type} [DecidableEq κ]
    (prs : List (κ × Nat)) (thr cap : Nat) (k : κ) (n : Nat)
    (h : sumFor prs k < thr) :
    (k, n) ∉ (sortDescBy (fun g => g.2)
      ((groupSums prs).filter fun g => decide (thr ≤ g.2))).take cap := by
  intro hmem
  have h1 : (k, n) ∈ (groupSums prs).filter fun g => decide (thr ≤ g.2) :=
    (sortDescBy_perm _ _).mem_iff.1 (List.take_subset cap _ hmem)
  obtain ⟨he, hthr⟩ := having_mem_inv h1
  simp only at he
  omega

/-- When at most `cap` groups qualify, every qualifying group is
emitted. -/
lemma qualifying_emitted_of_under_cap {κ : Type} [DecidableEq κ]
    (qual : List (κ × Nat)) (cap : Nat) (hlen : qual.length ≤ cap) :
    ∀ g ∈ qual, g ∈ (sortDescBy (fun g => g.2) qual).take cap := by
  intro g hg
  have hperm := sortDescBy_perm (fun g : κ × Nat => g.2) qual
  rw [List.take_of_length_le (by rw [hperm.length_eq]; exact hlen)]
  exact hperm.mem_iff.2 hg

/-- C7 (amended): for the summed-count detectors — burst (≥ 200),
repeated-blocked-threat-category (≥ 25), top-blocked-destination-host
(≥ 15) — a group whose summed count is exactly at (or above) the
threshold survives the `HAVING` filter and emits a finding whenever at
most the detector's result cap (20/25/20 rows) of groups qualify; a
group strictly below the threshold never emits a finding.  The cap
qualification is forced by each query's `LIMIT`. -/
theorem C7_threshold_boundary (t : List RollupRow) (uploadId : String) :
    ((∀ b ip, 200 ≤ sumFor (burstRows t uploadId) (b, ip) →
        ((b, ip), sumFor (burstRows t uploadId) (b, ip)) ∈ burstQualifying t uploadId) ∧
      (∀ b ip n, sumFor (burstRows t uploadId) (b, ip) < 200 →
        ((b, ip), n) ∉ burstFindings t uploadId) ∧
      ((burstQualifying t uploadId).length ≤ 20 →
        ∀ g ∈ burstQualifying t uploadId, g ∈ burstFindings t uploadId)) ∧
    ((∀ k, 25 ≤ sumFor (repeatRows t uploadId) k →
        (k, sumFor (repeatRows t uploadId) k) ∈ repeatQualifying t uploadId) ∧
      (∀ k n, sumFor (repeatRows t uploadId) k < 25 →
        (k, n) ∉ repeatFindings t uploadId) ∧
      ((repeatQualifying t uploadId).length ≤ 25 →
        ∀ g ∈ repeatQualifying t uploadId, g ∈ repeatFindings t uploadId)) ∧
    ((∀ dh, 15 ≤ sumFor (hostRows t uploadId) dh →
        (dh, sumFor (hostRows t uploadId) dh) ∈ hostQualifying t uploadId) ∧
      (∀ dh n, sumFor (hostRows t uploadId) dh < 15 →
        (dh, n) ∉ hostFindings t uploadId) ∧
      ((hostQualifying t uploadId).length ≤ 20 →
        ∀ g ∈ hostQualifying t uploadId, g ∈ hostFindings t uploadId)) := by
  refine ⟨⟨?_, ?_, ?_⟩, ⟨?_, ?_, ?_⟩, ⟨?_, ?_, ?_⟩⟩
  · intro b ip h
    exact having_mem (burstRows t uploadId) 200 (b, ip) (by norm_num) h
  · intro b ip n h
    exact below_threshold_not_emitted (burstRows t uploadId) 200 20 (b, ip) n h
  · exact fun h => qualifying_emitted_of_under_cap (burstQualifying t uploadId) 20 h
  · intro k h
    exact having_mem (repeatRows t uploadId) 25 k (by norm_num) h
  · intro k n h
    exact below_threshold_not_emitted (repeatRows t uploadId) 25 25 k n h
  · exact fun h => qualifying_emitted_of_under_cap (repeatQualifying t uploadId) 25 h
  · intro dh h
    exact having_mem (hostRows t uploadId) 15 dh (by norm_num) h
  · intro dh n h
    exact below_threshold_not_emitted (hostRows t uploadId) 15 20 dh n h
  · exact fun h => qualifying_emitted_of_under_cap (hostQualifying t uploadId) 20 h

/-- Witness for C7: on a table with one burst group summing to exactly
200 and one summing to 199, the 200-group qualifies and is emitted and
the 199-group is not emitted. -/
theorem C7_threshold_boundary_witness :
    ((0, "9.9.9.9"), sumFor (burstRows c7WitnessTable "u") (0, "9.9.9.9")) ∈
      burstQualifying c7WitnessTable "u" ∧
    ((0, "9.9.9.9"), sumFor (burstRows c7WitnessTable "u") (0, "9.9.9.9")) ∈
      burstFindings c7WitnessTable "u" ∧
    ((0, "8.8.8.8"), 199) ∉ burstFindings c7WitnessTable "u" :=
  ⟨(C7_threshold_boundary c7WitnessTable "u").1.1 0 "9.9.9.9" (by decide),
   (C7_threshold_boundary c7WitnessTable "u").1.2.2 (by decide)
     ((0, "9.9.9.9"), sumFor (burstRows c7WitnessTable "u") (0, "9.9.9.9"))
     ((C7_threshold_boundary c7WitnessTable "u").1.1 0 "9.9.9.9" (by decide)),
   (C7_threshold_boundary c7WitnessTable "u").1.2.1 0 "8.8.8.8" 199 (by decide)⟩

/-- C7 counterexample to the unamended claim: with 20 groups above the
threshold, the `LIMIT 20` cap drops a group whose summed count is
exactly 200, so it is included by the `HAVING` filter but emits no
finding. -/
theorem C7_counterexample :
    sumFor (burstRows c7Table "u") (0, "9.9.9.9") = 200 ∧
    ((0, "9.9.9.9"), 200) ∈ burstQualifying c7Table "u" ∧
    (burstFindings c7Table "u").filter
      (fun g => decide (g.1 = (0, "9.9.9.9"))) = [] := by decide

/-- C4: evaluation of `_detect_phish_to_payload_chain` (window 30,
min_phish 2, min_payload 2) on three two-group tables.  The claim's
positive scenarios hold (payload at T+10 emits exactly one finding,
payload at T+40 emits none), but the query has no lower bound on
`first_payload`: payload activity 10 minutes BEFORE the phishing
activity also emits a finding, contradicting the claim's (and the
detector docstring's) "at or after" requirement. -/
theorem C4_chain_window_evaluation :
    detect_phish_to_payload_chain c4TableBefore "u" 30 2 2 =
      [⟨("bob@example.com", "10.0.0.5"), 1000, 990, 2, 2⟩] ∧
    detect_phish_to_payload_chain c4TableAfter10 "u" 30 2 2 =
      [⟨("bob@example.com", "10.0.0.5"), 1000, 1010, 2, 2⟩] ∧
    detect_phish_to_payload_chain c4TableAfter40 "u" 30 2 2 = [] := by decide

/-- Invariant of the ingest line loop: the final inserted count plus
the pending batch equals the starting amounts plus the good lines; bad
lines add up; committed events plus pending batch likewise. -/
lemma ingestLoop_spec (uploadId : String) (batchSize : Nat) :
    ∀ (lines : List IngestLine) (ins bad : Nat) (evs batch : List Row),
    (ingestLoop uploadId batchSize (ins, bad, evs, batch) lines).1 +
        (ingestLoop uploadId batchSize (ins, bad, evs, batch) lines).2.2.2.length =
      ins + batch.length + (lines.filter lineGood).length ∧
    (ingestLoop uploadId batchSize (ins, bad, evs, batch) lines).2.1 =
      bad + (lines.filter lineBad).length ∧
    (ingestLoop uploadId batchSize (ins, bad, evs, batch) lines).2.2.1.length +
        (ingestLoop uploadId batchSize (ins, bad, evs, batch) lines).2.2.2.length =
      evs.length + batch.length + (lines.filter lineGood).length := by
  intro lines
  induction lines with
  | nil =>
    intro ins bad evs batch
    simp [ingestLoop]
  | cons ln rest ih =>
    intro ins bad evs batch
    obtain ⟨s, p⟩ := ln
    by_cases hs : pyStrip s = ""
    · have hg : lineGood (s, p) = false := by simp [lineGood, hs]
      have hb : lineBad (s, p) = false := by simp [lineBad, hs]
      simp only [ingestLoop, hs, if_true, List.filter_cons, hg, hb,
        Bool.false_eq_true, if_false]
      exact ih ins bad evs batch
    · match p with
      | none =>
        have hg : lineGood (s, none) = false := by simp [lineGood]
        have hb : lineBad (s, none) = true := by simp [lineBad, hs]
        simp only [ingestLoop, hs, if_false, List.filter_cons, hg, hb,
          Bool.false_eq_true, if_false, if_true, List.length_cons]
        obtain ⟨ih1, ih2, ih3⟩ := ih ins (bad + 1) evs batch
        refine ⟨by omega, by omega, by omega⟩
      | some obj =>
        rcases hnorm : normalize_zscaler obj with e | row
        · have hg : lineGood (s, some obj) = false := by
            simp [lineGood, hnorm, Except.isOk, Except.toBool]
          have hb : lineBad (s, some obj) = true := by
            simp [lineBad, hs, hnorm, Except.isOk, Except.toBool]
          simp only [ingestLoop, hs, if_false, hnorm, List.filter_cons, hg, hb,
            Bool.false_eq_true, if_false, if_true, List.length_cons]
          obtain ⟨ih1, ih2, ih3⟩ := ih ins (bad + 1) evs batch
          refine ⟨by omega, by omega, by omega⟩
        · have hg : lineGood (s, some obj) = true := by
            simp [lineGood, hs, hnorm, Except.isOk, Except.toBool]
          have hb : lineBad (s, some obj) = false := by
            simp [lineBad, hnorm, Except.isOk, Except.toBool]
          simp only [ingestLoop, hs, if_false, hnorm, List.filter_cons, hg, hb,
            Bool.false_eq_true, if_false, if_true, List.length_cons]
          by_cases hfl : batchSize ≤ (batch ++ [{ row with upload_id := uploadId }]).length
          · simp only [hfl, if_true]
            obtain ⟨ih1, ih2, ih3⟩ := ih (ins + (batch ++ [{ row with upload_id := uploadId }]).length)
              bad (evs ++ (batch ++ [{ row with upload_id := uploadId }])) []
            simp only [List.length_append, List.length_cons, List.length_nil] at *
            refine ⟨by omega, by omega, by omega⟩
          · simp only [hfl, if_false]
            obtain ⟨ih1, ih2, ih3⟩ := ih ins bad evs (batch ++ [{ row with upload_id := uploadId }])
            simp only [List.length_append, List.length_cons, List.length_nil] at *
            refine ⟨by omega, by omega, by omega⟩

theorem C8_bad_line_tolerance (lines : List IngestLine) (uploadId : String)
    (batchSize : Nat) :
    (run_ingest_job lines uploadId batchSize).inserted =
      (lines.filter lineGood).length ∧
    (run_ingest_job lines uploadId batchSize).events.length =
      (lines.filter lineGood).length ∧
    (run_ingest_job lines uploadId batchSize).badLines =
      (lines.filter lineBad).length ∧
    (run_ingest_job lines uploadId batchSize).status = "done" := by
  obtain ⟨h1, h2, h3⟩ := ingestLoop_spec uploadId batchSize lines 0 0 [] []
  unfold run_ingest_job
  rcases hr : ingestLoop uploadId batchSize (0, 0, [], []) lines with
    ⟨ins, bad, evs, batch⟩
  rw [hr] at h1 h2 h3
  dsimp only at h1 h2 h3 ⊢
  by_cases hb : batch.isEmpty
  · have hbnil : batch = [] := by
      cases batch with
      | nil => rfl
      | cons x xs => simp [List.isEmpty] at hb
    subst hbnil
    rw [if_pos hb]
    dsimp only
    simp only [List.length_nil] at h1 h3
    refine ⟨by omega, by omega, by omega, rfl⟩
  · rw [if_neg hb]
    dsimp only
    simp only [List.length_append, List.length_nil] at h1 h3 ⊢
    refine ⟨by omega, by omega, by omega, trivial⟩

/-- C10: an input line that is empty or whitespace-only is skipped
entirely: the run's result (inserted count, bad-line count, committed
events, status) is identical to the run without that line. -/
theorem C10_blank_line_skipped (s : String) (p : Option JVal)
    (rest : List IngestLine) (uploadId : String) (batchSize : Nat)
    (h : pyStrip s = "") :
    run_ingest_job ((s, p) :: rest) uploadId batchSize =
      run_ingest_job rest uploadId batchSize := by
  unfold run_ingest_job
  simp only [ingestLoop, h, if_true]

/-- Witness for C10: a two-space line changes nothing. -/
theorem C10_blank_line_skipped_witness :
    run_ingest_job [("  ", none)] "u" 1000 = run_ingest_job [] "u" 1000 :=
  C10_blank_line_skipped "  " none [] "u" 1000 (by decide)

/-- C9: a line whose JSON value is not an object (array, number,
string, boolean, null) normalizes to a row whose canonical fields are
all null while `raw` keeps the original value, and is inserted as a
valid event, not counted as a bad line. -/
theorem C9_nonobject_all_null (v : JVal) (h : ∀ kvs, v ≠ JVal.jobj kvs) :
    normalize_zscaler v = .ok { raw := v } ∧
    ∀ (s uploadId : String) (batchSize : Nat), pyStrip s ≠ "" →
      run_ingest_job [(s, some v)] uploadId batchSize =
        ⟨1, 0, [{ raw := v, upload_id := uploadId }], "done"⟩ := by
  have hnorm : normalize_zscaler v = .ok { raw := v } := by
    cases v with
    | jobj kvs => exact absurd rfl (h kvs)
    | jnull => rfl
    | jbool b => rfl
    | jnum n => rfl
    | jstr s => rfl
    | jarr xs => rfl
  refine ⟨hnorm, ?_⟩
  intro s uploadId batchSize hs
  unfold run_ingest_job
  simp only [ingestLoop, hnorm]
  rw [if_neg hs]
  simp only [List.nil_append, List.length_cons, List.length_nil]
  by_cases hfl : batchSize ≤ 1
  · rw [if_pos hfl]
    simp [ingestLoop]
  · rw [if_neg hfl]
    simp [ingestLoop]

/-- Witness for C9 on a JSON array line. -/
theorem C9_nonobject_all_null_witness :
    normalize_zscaler (JVal.jarr .nil) = .ok { raw := JVal.jarr .nil } ∧
    run_ingest_job [("[]", some (JVal.jarr .nil))] "u7" 1000 =
      ⟨1, 0, [{ raw := JVal.jarr .nil, upload_id := "u7" }], "done"⟩ :=
  ⟨(C9_nonobject_all_null (JVal.jarr .nil) (fun _ h => JVal.noConfusion h)).1,
   (C9_nonobject_all_null (JVal.jarr .nil) (fun _ h => JVal.noConfusion h)).2
     "[]" "u7" 1000 (by decide)⟩

/-- C1 counterexample: the record `{"event": {"datetime":
"not-a-date"}}` is NOT inserted with a null timestamp — `strptime`
raises inside `normalize_zscaler`, the loop counts the line as bad,
and no event is stored. -/
theorem C1_counterexample :
    (run_ingest_job [notADateLine] "u1" 1000).inserted = 0 ∧
    (run_ingest_job [notADateLine] "u1" 1000).badLines = 1 ∧
    (run_ingest_job [notADateLine] "u1" 1000).events = [] := by decide

lemma toList_ofList (l : List (String × JVal)) : (JObj.ofList l).toList = l := by
  induction l with
  | nil => rfl
  | cons kv rest ih =>
    cases kv
    simp [JObj.ofList, JObj.toList, ih]

/-- C1 (amended): a record whose `event.datetime` is null, absent, or
the empty string normalizes to a null event timestamp and is inserted
as a valid event (not a bad line), and a null-timestamp event is
excluded from rollup aggregation; a record whose timestamp is a
non-empty unparseable string instead fails normalization and is
counted as a bad line and skipped (see the counterexample). -/
theorem C1_null_timestamp_amended (ev : List (String × JVal))
    (h : pyGet ev "datetime" = none ∨ pyGet ev "datetime" = some (JVal.jstr "")) :
    (∃ row : Row, normalize_zscaler (jobjEvent ev) = .ok row ∧
      row.event_time = none) ∧
    (∀ (s uploadId : String) (batchSize : Nat), pyStrip s ≠ "" →
      (run_ingest_job [(s, some (jobjEvent ev))] uploadId batchSize).inserted = 1 ∧
      (run_ingest_job [(s, some (jobjEvent ev))] uploadId batchSize).badLines = 0) ∧
    (∀ (pre post : List Row) (e : Row) (uploadId : String), e.event_time = none →
      build_minute_rollup (pre ++ e :: post) uploadId =
        build_minute_rollup (pre ++ post) uploadId) := by
  have hparse : parse_dt (pyGet ev "datetime") = .ok none := by
    rcases h with h | h <;> rw [h] <;> rfl
  have key : normalize_zscaler (jobjEvent ev) =
      (match parse_dt (pyGet ((JObj.ofList ev).toList) "datetime") with
       | .error _ => .error ()
       | .ok t => .ok {
          event_time := t
          event_id := pyGet ((JObj.ofList ev).toList) "event_id"
          vendor := pyGet ((JObj.ofList ev).toList) "vendor"
          action := pyGet ((JObj.ofList ev).toList) "action"
          reason := pyGet ((JObj.ofList ev).toList) "reason"
          severity := pyGet ((JObj.ofList ev).toList) "severity"
          status := toIntField (pyGet ((JObj.ofList ev).toList) "status")
          user_email := pyGet ((JObj.ofList ev).toList) "user"
          department := pyGet ((JObj.ofList ev).toList) "department"
          location := pyGet ((JObj.ofList ev).toList) "location"
          client_ip := pyGet ((JObj.ofList ev).toList) "ClientIP"
          server_ip := pyGet ((JObj.ofList ev).toList) "serverip"
          dest_host := pyGet ((JObj.ofList ev).toList) "hostname"
          url := pyGet ((JObj.ofList ev).toList) "url"
          request_method := pyGet ((JObj.ofList ev).toList) "requestmethod"
          url_category := pyGet ((JObj.ofList ev).toList) "urlcategory"
          threat_category := pyGet ((JObj.ofList ev).toList) "threatcategory"
          threat_name := pyGet ((JObj.ofList ev).toList) "threatname"
          risk_score := toIntField (pyGet ((JObj.ofList ev).toList) "riskscore")
          request_size := toIntField (pyGet ((JObj.ofList ev).toList) "requestsize")
          response_size := toIntField (pyGet ((JObj.ofList ev).toList) "responsesize")
          transaction_size := toIntField (pyGet ((JObj.ofList ev).toList) "transactionsize")
          raw := jobjEvent ev } : Except Unit Row) := rfl
  simp only [toList_ofList] at key
  rw [hparse] at key
  refine ⟨⟨_, key, rfl⟩, ?_, ?_⟩
  · intro s uploadId batchSize hs
    unfold run_ingest_job
    simp only [ingestLoop, key]
    rw [if_neg hs]
    simp only [List.nil_append, List.length_cons, List.length_nil]
    by_cases hfl : batchSize ≤ 1
    · rw [if_pos hfl]
      simp [ingestLoop]
    · rw [if_neg hfl]
      simp [ingestLoop]
  · intro pre post e uploadId he
    unfold build_minute_rollup rollupSource
    simp [List.filter_append, List.filter_cons, he]

/-- Witness for C1 at a record with an explicit JSON-null timestamp. -/
theorem C1_null_timestamp_amended_witness :
    (∃ row : Row,
      normalize_zscaler (jobjEvent [("datetime", JVal.jnull)]) = .ok row ∧
      row.event_time = none) ∧
    (run_ingest_job [("x", some (jobjEvent [("datetime", JVal.jnull)]))]
      "u1" 1000).inserted = 1 ∧
    (run_ingest_job [("x", some (jobjEvent [("datetime", JVal.jnull)]))]
      "u1" 1000).badLines = 0 ∧
    build_minute_rollup ([] ++ rowNullTime :: []) "u" =
      build_minute_rollup ([] ++ []) "u" :=
  ⟨(C1_null_timestamp_amended [("datetime", JVal.jnull)] (Or.inl rfl)).1,
   ((C1_null_timestamp_amended [("datetime", JVal.jnull)] (Or.inl rfl)).2.1
     "x" "u1" 1000 (by decide)).1,
   ((C1_null_timestamp_amended [("datetime", JVal.jnull)] (Or.inl rfl)).2.1
     "x" "u1" 1000 (by decide)).2,
   (C1_null_timestamp_amended [("datetime", JVal.jnull)] (Or.inl rfl)).2.2
     [] [] rowNullTime "u" rfl⟩

/-! ### Sanity checks of the timestamp parser -/

example : parseDT "not-a-date" = none := by decide
example : (parseDT "2024-01-01 00:00:00").isSome = true := by decide
example : parseDT "" = none := by decide
example : parseDT "2024-02-30 00:00:00" = none := by decide
example : parseDT "2024-01-01 00:00:00x" = none := by decide
